import Mathlib

/-!
Verification of the supervision-and-channel core of the
`microsoft-entra-token-studio` desktop shell (`src-tauri/src/sidecar.rs`
and `src-tauri/src/lib.rs`), as a shallow embedding in Lean 4.

The embedding keeps the source's structure: the key provisioner
(`get_or_create_cache_key_b64`, `get_or_create_cache_key_b64_file`,
`is_valid_cache_key_b64`), the supervisor/channel state
(`SidecarManager` with `start` and `call`), and the health query
(`check_sidecar_health` from `lib.rs`).  External effects (the OS
keyring, the filesystem, process spawning, pipe I/O) are modelled as
explicit state records and world/oracle records whose fields hold the
results the OS would return; the Rust functions then become pure
state-passing functions over them.
-/

/-! ## Base64 (the `base64` crate's STANDARD engine)

The sidecar code uses `base64::engine::general_purpose::STANDARD`:
the standard alphabet, canonical `=` padding required on decode, and
non-zero trailing bits rejected.  We model bytes as `Nat` (values
< 256 in practice). -/

/-- Value of one character of the standard base64 alphabet, `none` for
any character outside it. -/
def b64CharVal (c : Char) : Option Nat :=
  if 'A' ≤ c ∧ c ≤ 'Z' then some (c.toNat - 65)
  else if 'a' ≤ c ∧ c ≤ 'z' then some (c.toNat - 97 + 26)
  else if '0' ≤ c ∧ c ≤ '9' then some (c.toNat - 48 + 52)
  else if c = '+' then some 62
  else if c = '/' then some 63
  else none

/-- Character for a 6-bit group, standard alphabet. -/
def b64Char (n : Nat) : Char :=
  if n < 26 then Char.ofNat (65 + n)
  else if n < 52 then Char.ofNat (97 + (n - 26))
  else if n < 62 then Char.ofNat (48 + (n - 52))
  else if n = 62 then '+'
  else '/'

/-- Base64-encode a byte list (standard alphabet, `=` padding), as the
crate's `STANDARD.encode`. -/
def encodeB64Chunks : List Nat → List Char
  | [] => []
  | [b0] => [b64Char (b0 / 4), b64Char ((b0 % 4) * 16), '=', '=']
  | [b0, b1] => [b64Char (b0 / 4), b64Char ((b0 % 4) * 16 + b1 / 16),
                 b64Char ((b1 % 16) * 4), '=']
  | b0 :: b1 :: b2 :: rest =>
      b64Char (b0 / 4) :: b64Char ((b0 % 4) * 16 + b1 / 16) ::
      b64Char ((b1 % 16) * 4 + b2 / 64) :: b64Char (b2 % 64) ::
      encodeB64Chunks rest

def encodeB64 (bytes : List Nat) : String := String.mk (encodeB64Chunks bytes)

/-- Base64-decode (standard alphabet): length must be a multiple of 4,
padding must be canonical and at the very end, and padded blocks must
carry no non-zero trailing bits, as the crate's `STANDARD.decode`. -/
def decodeB64Chars : List Char → Option (List Nat)
  | [] => some []
  | c0 :: c1 :: c2 :: c3 :: rest =>
    match b64CharVal c0, b64CharVal c1 with
    | some v0, some v1 =>
      if c2 = '=' then
        if c3 = '=' ∧ rest = [] ∧ v1 % 16 = 0 then some [v0 * 4 + v1 / 16]
        else none
      else
        match b64CharVal c2 with
        | some v2 =>
          if c3 = '=' then
            if rest = [] ∧ v2 % 4 = 0 then
              some [v0 * 4 + v1 / 16, (v1 % 16) * 16 + v2 / 4]
            else none
          else
            match b64CharVal c3 with
            | some v3 =>
              match decodeB64Chars rest with
              | some bs =>
                  some ((v0 * 4 + v1 / 16) :: ((v1 % 16) * 16 + v2 / 4) ::
                        ((v2 % 4) * 64 + v3) :: bs)
              | none => none
            | none => none
        | none => none
    | _, _ => none
  | _ => none

/-! ## Key provisioner (`sidecar.rs` lines 20-111)

The OS keyring is modelled as a `KeyringState`: the stored entry (if
any) together with the error each fallible keyring operation would
report (`none` meaning the operation succeeds).  `getrandom` is
modelled by a `gen` argument holding the 32 bytes it would produce, or
the error it would fail with. -/

/-- State/oracle for the OS keyring used by `get_or_create_cache_key_b64`:
`initErr` is a failure of `Entry::new`, `readErr` a failure of
`get_password` other than `NoEntry` (e.g. store unreachable), `entry`
the stored credential (absent means `get_password` yields `NoEntry`),
`setErr` a failure of `set_password`. -/
structure KeyringState where
  initErr : Option String
  entry : Option String
  readErr : Option String
  setErr : Option String
deriving DecidableEq, Repr

/-- Rust `str::trim`: drop whitespace from both ends.  (Defined by
structural recursion so proofs can evaluate it; Lean's `String.trim`
is equivalent on this data but defined by well-founded recursion.) -/
def strTrim (s : String) : String :=
  String.mk (((s.data.dropWhile Char.isWhitespace).reverse.dropWhile
    Char.isWhitespace).reverse)

/-- Regeneration branch of `get_or_create_cache_key_b64`
(`sidecar.rs` lines 31-39): delete the credential (result ignored),
generate 32 random bytes, base64-encode, store. -/
def keyringRegenerate (s : KeyringState) (gen : Except String (List Nat)) :
    Except String String × KeyringState :=
  match gen with
  | Except.error e =>
      (Except.error ("Failed to generate cache key: " ++ e), { s with entry := none })
  | Except.ok key =>
    match s.setErr with
    | some e =>
        (Except.error ("Failed to write keyring entry: " ++ e), { s with entry := none })
    | none =>
        (Except.ok (encodeB64 key), { s with entry := some (encodeB64 key) })

/-- `get_or_create_cache_key_b64` (`sidecar.rs` lines 20-46): reuse a
stored entry whose trim is non-empty; on a missing or empty entry,
regenerate and store; on any other read error, propagate the failure
without touching the store. -/
def get_or_create_cache_key_b64 (s : KeyringState) (gen : Except String (List Nat)) :
    Except String String × KeyringState :=
  match s.initErr with
  | some e => (Except.error ("Failed to initialize keyring: " ++ e), s)
  | none =>
    match s.readErr with
    | some err => (Except.error ("Failed to read keyring entry: " ++ err), s)
    | none =>
      match s.entry with
      | some existing =>
          if strTrim existing = "" then keyringRegenerate s gen
          else (Except.ok existing, s)
      | none => keyringRegenerate s gen

/-- `is_valid_cache_key_b64` (`sidecar.rs` lines 53-63): trimmed value
is non-empty and decodes to exactly 32 bytes. -/
def is_valid_cache_key_b64 (value : String) : Bool :=
  let trimmed := strTrim value
  if trimmed = "" then false
  else
    match decodeB64Chars trimmed.data with
    | some decoded => decoded.length == 32
    | none => false

/-- State/oracle for the key file used by
`get_or_create_cache_key_b64_file`: `content` is the result of
`fs::read_to_string` (absent meaning the read fails, e.g. no file),
`mkdirErr` a failure of `create_dir_all`, `writeErr` a failure of the
open/truncate/write of the key file (modelled atomically: on failure
the previous content is kept). -/
structure FileState where
  content : Option String
  mkdirErr : Option String
  writeErr : Option String
deriving DecidableEq, Repr

/-- Regeneration branch of `get_or_create_cache_key_b64_file`
(`sidecar.rs` lines 78-110): create the directory, generate 32 random
bytes, write their base64 to the key file (mode 0o600 on unix — the
permission bits are not modelled). -/
def fileRegenerate (s : FileState) (gen : Except String (List Nat)) :
    Except String String × FileState :=
  match s.mkdirErr with
  | some e => (Except.error ("Failed to create cache key directory: " ++ e), s)
  | none =>
    match gen with
    | Except.error e => (Except.error ("Failed to generate cache key: " ++ e), s)
    | Except.ok key =>
      match s.writeErr with
      | some e => (Except.error ("Failed to write cache key file: " ++ e), s)
      | none => (Except.ok (encodeB64 key), { s with content := some (encodeB64 key) })

/-- `get_or_create_cache_key_b64_file` (`sidecar.rs` lines 65-111):
reuse a readable file whose content passes `is_valid_cache_key_b64`
(returned trimmed); otherwise regenerate and overwrite. -/
def get_or_create_cache_key_b64_file (s : FileState) (gen : Except String (List Nat)) :
    Except String String × FileState :=
  match s.content with
  | some existing =>
      if is_valid_cache_key_b64 existing then (Except.ok (strTrim existing), s)
      else fileRegenerate s gen
  | none => fileRegenerate s gen

/-! ## JSON values and the JSON-RPC wire format
(`sidecar.rs` lines 168-195, 560-577)

A minimal JSON value type standing for `serde_json::Value`.  The
serializer mirrors `serde_json::to_string` on the request struct
(field order is declaration order); control-character escaping beyond
quote, backslash, newline, carriage return and tab is elided, as no
claim depends on the wire bytes. -/

inductive JsonValue where
  | null
  | jbool (b : Bool)
  | jnum (n : Int)
  | jstr (s : String)
  | jarr (elems : List JsonValue)
  | jobj (fields : List (String × JsonValue))

def jsonEscapeChar (c : Char) : String :=
  if c = '\x22' then "\\\x22"
  else if c = '\\' then "\\\\"
  else if c = '\n' then "\\n"
  else if c = '\r' then "\\r"
  else if c = '\t' then "\\t"
  else String.mk [c]

def jsonQuote (s : String) : String :=
  "\x22" ++ String.join (s.data.map jsonEscapeChar) ++ "\x22"

mutual

def serializeJson : JsonValue → String
  | JsonValue.null => "null"
  | JsonValue.jbool true => "true"
  | JsonValue.jbool false => "false"
  | JsonValue.jnum n => toString n
  | JsonValue.jstr s => jsonQuote s
  | JsonValue.jarr l => "[" ++ serializeArr l ++ "]"
  | JsonValue.jobj l => "\x7b" ++ serializeObj l ++ "\x7d"

def serializeArr : List JsonValue → String
  | [] => ""
  | [v] => serializeJson v
  | v :: rest => serializeJson v ++ "," ++ serializeArr rest

def serializeObj : List (String × JsonValue) → String
  | [] => ""
  | [(k, v)] => jsonQuote k ++ ":" ++ serializeJson v
  | (k, v) :: rest => jsonQuote k ++ ":" ++ serializeJson v ++ "," ++ serializeObj rest

end

/-- `JsonRpcRequest` (`sidecar.rs` lines 169-175). `id` is the u64
request identifier. -/
structure JsonRpcRequest where
  jsonrpc : String
  id : Nat
  method : String
  params : JsonValue

/-- `JsonRpcError` (`sidecar.rs` lines 188-195). -/
structure JsonRpcError' where
  code : Int
  message : String
  data : Option JsonValue

/-- `JsonRpcResponse` (`sidecar.rs` lines 178-186), the result of
`serde_json::from_str` on a response line. -/
structure JsonRpcResponse' where
  jsonrpc : String
  id : Option Nat
  result : Option JsonValue
  error : Option JsonRpcError'

/-- `serde_json::to_string` on a `JsonRpcRequest` (infallible for this
struct, so modelled total; the source maps an impossible failure to a
"Failed to serialize" error). -/
def serializeRequest (r : JsonRpcRequest) : String :=
  "\x7b\x22jsonrpc\x22:" ++ jsonQuote r.jsonrpc ++ ",\x22id\x22:" ++ toString r.id ++
    ",\x22method\x22:" ++ jsonQuote r.method ++ ",\x22params\x22:" ++
    serializeJson r.params ++ "\x7d"

/-! ## Supervisor state and `start` (`sidecar.rs` lines 197-541) -/

/-- The spawned worker handle (`tokio::process::Child`): pid plus
whether the piped stdin/stdout handles are available (`child.stdin` /
`child.stdout` being `Some`). -/
structure Child where
  pid : Nat
  stdinOk : Bool
  stdoutOk : Bool
deriving DecidableEq, Repr

/-- `SidecarManager` (`sidecar.rs` lines 198-203). `request_id` holds
a u64 value. -/
structure SidecarManager where
  child : Option Child
  request_id : Nat
  start_error : Option String
deriving DecidableEq, Repr

/-- `SidecarManager::new` (`sidecar.rs` lines 206-212). -/
def SidecarManager.new : SidecarManager :=
  { child := none, request_id := 0, start_error := none }

/-- Platform selector for the `cfg(target_os = ...)` branches. -/
inductive OS where
  | macos
  | windows
  | linux
  | otherOS
deriving DecidableEq, Repr

/-- Paths are modelled as component lists (`PathBuf`). -/
def listParent : List String → Option (List String)
  | [] => none
  | a :: l => some (a :: l).dropLast

/-- The expected relative script path `sidecar/dist/index.cjs`. -/
def sidecarRel : List String := ["sidecar", "dist", "index.cjs"]

/-- `Path::ancestors`: the path itself, then each parent, ending with
the empty path. -/
def ancestors (p : List String) : List (List String) :=
  match p with
  | [] => [[]]
  | a :: l => (a :: l) :: ancestors (a :: l).dropLast
termination_by p.length
decreasing_by simp [List.dropLast_cons_of_ne_nil, List.length_dropLast]

/-- `join` of path components used to mirror the `{:?}` rendering and
the `Vec::join(", ")` of the checked-path list. -/
def joinSep (sep : String) : List String → String
  | [] => ""
  | [x] => x
  | x :: rest => x ++ sep ++ joinSep sep rest

/-- `format!` of a `PathBuf` with the debug formatter, which quotes the
path (separator rendered as `/`). -/
def renderPath (p : List String) : String := "\x22" ++ joinSep "/" p ++ "\x22"

/-- The ordered production candidate list built in `start`
(`sidecar.rs` lines 410-426): on macOS the resources path
`{contents}/Resources/sidecar/dist/index.cjs` first, then, on every
platform, `{exe_dir}/sidecar/dist/index.cjs`. -/
def pathsToCheck (os : OS) (exeDir : List String) : List (List String) :=
  (match os, listParent exeDir with
   | OS.macos, some contentsDir => [contentsDir ++ ["Resources"] ++ sidecarRel]
   | _, _ => []) ++ [exeDir ++ sidecarRel]

/-- The script-not-found diagnostic (`sidecar.rs` lines 441-446). -/
def scriptNotFoundMsg (paths : List (List String)) : String :=
  "Could not find sidecar dist directory. Checked paths: " ++
    joinSep ", " (paths.map renderPath) ++
    ". Make sure the sidecar is built (cd sidecar && npm run build)"

/-- Script discovery in `start` (`sidecar.rs` lines 397-453): first
existing production candidate; else the first ancestor of the exe dir
containing `sidecar/dist/index.cjs`; else the diagnostic error. -/
def findSidecarScript (os : OS) (fs : List String → Bool) (exeDir : List String) :
    Except String (List String) :=
  let paths := pathsToCheck os exeDir
  match paths.find? (fun p => fs p) with
  | some p => Except.ok p
  | none =>
    match (ancestors exeDir).find? (fun a => fs (a ++ sidecarRel)) with
    | some a => Except.ok (a ++ sidecarRel)
    | none => Except.error (scriptNotFoundMsg paths)

/-- Platform install hint in the node-not-found message
(`sidecar.rs` lines 460-467). -/
def installHint : OS → String
  | OS.macos => "Install via Homebrew: brew install node"
  | OS.windows =>
      "Download from https://nodejs.org or install via: winget install OpenJS.NodeJS.LTS"
  | OS.linux =>
      "Install via your package manager (apt install nodejs, dnf install nodejs, pacman -S nodejs, or snap install node --classic)"
  | OS.otherOS => "Download from https://nodejs.org"

/-- The `[NODE_NOT_FOUND]` message (`sidecar.rs` lines 469-474). -/
def nodeNotFoundMsg (os : OS) : String :=
  "[NODE_NOT_FOUND] Node.js (version 20 or higher) is required but was not found. Please install Node.js and ensure it\x27s in your PATH. " ++
    installHint os ++ ". Download: https://nodejs.org"

/-- `Command::spawn` failure: the io error kind `NotFound` is reported
differently from other errors (`sidecar.rs` lines 524-536). -/
inductive SpawnErr where
  | notFound
  | otherErr (e : String)

/-- Oracle for the host-OS queries `start` makes: the result of
`std::env::current_exe`, the filesystem existence predicate, the result
of `find_node_executable` (`sidecar.rs` lines 216-380 — a pure probe of
PATH, standard install locations and version-manager layouts that reads
no manager state; only its result feeds back into `start`), the result
of `Command::spawn`, and the target platform.  The environment injected
into the spawned command (`sidecar.rs` lines 486-517: data dir, cache
key, provenance, PATH additions, Windows console flags) configures the
child process only and is not modelled, as no claim refers to it. -/
structure StartWorld where
  currentExe : Except String (List String)
  fsExists : List String → Bool
  node : Option (List String)
  spawn : Except SpawnErr Child
  os : OS

inductive StartEvent where
  | spawned (c : Child)
deriving DecidableEq, Repr

/-- The discovery-and-spawn body of `start` (`sidecar.rs` lines
397-538), run only when no child handle is held; pure in the manager
state, so factored out of `SidecarManager.start`. -/
def startDiscovery (w : StartWorld) : Except String Child :=
  match w.currentExe with
  | Except.error e => Except.error ("Failed to get executable path: " ++ e)
  | Except.ok exePath =>
    match listParent exePath with
    | none => Except.error "Failed to get parent directory"
    | some exeDir =>
      match findSidecarScript w.os w.fsExists exeDir with
      | Except.error msg => Except.error msg
      | Except.ok script =>
        match w.node with
        | none => Except.error (nodeNotFoundMsg w.os)
        | some nodePath =>
          match w.spawn with
          | Except.error SpawnErr.notFound =>
              Except.error ("Node.js executable not found at " ++ renderPath nodePath ++
                ". Please install Node.js and ensure it\x27s in your PATH.")
          | Except.error (SpawnErr.otherErr e) =>
              Except.error ("Failed to spawn sidecar from " ++ renderPath script ++ ": " ++ e)
          | Except.ok c => Except.ok c

/-- `SidecarManager::start` (`sidecar.rs` lines 384-541): no-op success
while a child handle is held (line 385-387); otherwise clear
`start_error` (line 390), run discovery and spawn, record the handle on
success (line 539) or the failure reason in `start_error` (every error
path stores the message before propagating it). -/
def SidecarManager.start (m : SidecarManager) (w : StartWorld) :
    Except String Unit × SidecarManager × List StartEvent :=
  if m.child.isSome then (Except.ok (), m, [])
  else
    match startDiscovery w with
    | Except.error msg => (Except.error msg, { m with start_error := some msg }, [])
    | Except.ok c =>
        (Except.ok (), { m with start_error := none, child := some c },
         [StartEvent.spawned c])

/-! ## RPC channel `call` (`sidecar.rs` lines 544-599) -/

/-- Oracle for the pipe I/O a dispatched `call` performs: the results
of `write_all`, `flush`, `read_line` (with the line read), and of
`serde_json::from_str` on that line. -/
structure CallWorld where
  writeRes : Except String Unit
  flushRes : Except String Unit
  readRes : Except String String
  parse : String → Except String JsonRpcResponse'

/-- Observable traffic on the child's stream pair. -/
inductive ChanEvent where
  | wrote (line : String)
  | readLine (line : String)

/-- The dispatched body of `call` (`sidecar.rs` lines 568-598), run
after the not-started check and the `request_id` increment; it does not
touch the manager state, so factored out of `SidecarManager.call`.
Returns the call result and the stream traffic performed. -/
def callDispatched (child : Child) (requestJson : String) (w : CallWorld) :
    Except String JsonValue × List ChanEvent :=
  if child.stdinOk then
    match w.writeRes with
    | Except.error e => (Except.error ("Failed to write to sidecar: " ++ e), [])
    | Except.ok _ =>
      match w.flushRes with
      | Except.error e =>
          (Except.error ("Failed to flush: " ++ e), [ChanEvent.wrote (requestJson ++ "\n")])
      | Except.ok _ =>
        if child.stdoutOk then
          match w.readRes with
          | Except.error e =>
              (Except.error ("Failed to read from sidecar: " ++ e),
               [ChanEvent.wrote (requestJson ++ "\n")])
          | Except.ok line =>
            match w.parse line with
            | Except.error e =>
                (Except.error ("Failed to parse response: " ++ e),
                 [ChanEvent.wrote (requestJson ++ "\n"), ChanEvent.readLine line])
            | Except.ok resp =>
              match resp.error with
              | some err =>
                  (Except.error err.message,
                   [ChanEvent.wrote (requestJson ++ "\n"), ChanEvent.readLine line])
              | none =>
                  (Except.ok (resp.result.getD JsonValue.null),
                   [ChanEvent.wrote (requestJson ++ "\n"), ChanEvent.readLine line])
        else
          (Except.error "Sidecar stdout not available",
           [ChanEvent.wrote (requestJson ++ "\n")])
  else (Except.error "Sidecar stdin not available", [])

/-- `SidecarManager::call` (`sidecar.rs` lines 544-599): while no child
handle is held, fail immediately with the "Sidecar not started" marker,
extended with the recorded `start_error` when one exists (lines
549-556), leaving the state untouched; otherwise increment `request_id`
(u64 wrapping arithmetic as in a release build, hence the `% 2 ^ 64`),
serialize the request, write and flush it, read and parse one response
line, and surface the response's error message or its (possibly
absent, then null) result. -/
def SidecarManager.call (m : SidecarManager) (method : String) (params : JsonValue)
    (w : CallWorld) : Except String JsonValue × SidecarManager × List ChanEvent :=
  match m.child with
  | none =>
    match m.start_error with
    | some se => (Except.error ("Sidecar not started" ++ ": " ++ se), m, [])
    | none => (Except.error "Sidecar not started", m, [])
  | some child =>
    let rid := (m.request_id + 1) % 2 ^ 64
    let m1 : SidecarManager := { m with request_id := rid }
    let req : JsonRpcRequest :=
      { jsonrpc := "2.0", id := rid, method := method, params := params }
    let out := callDispatched child (serializeRequest req) w
    (out.1, m1, out.2)

/-! ## Health query (`lib.rs` lines 101-126) -/

/-- Rust `str::contains` on a string pattern. -/
def strContains (s pat : String) : Bool :=
  s.data.tails.any (fun t => pat.data.isPrefixOf t)

/-- The JSON object `check_sidecar_health` returns. -/
structure HealthStatus where
  running : Bool
  error : Option String
  errorCode : Option String
deriving DecidableEq, Repr

/-- `check_sidecar_health` (`lib.rs` lines 101-126): `running` is
whether a child handle is held; `errorCode` classifies the recorded
start error by substring matching. -/
def check_sidecar_health (m : SidecarManager) : HealthStatus :=
  { running := m.child.isSome
  , error := m.start_error
  , errorCode := m.start_error.bind (fun e =>
      if strContains e "[NODE_NOT_FOUND]" then some "NODE_NOT_FOUND"
      else if strContains e "Could not find sidecar" then some "SIDECAR_SCRIPT_NOT_FOUND"
      else none) }

/-! ## Trace semantics for the supervisor lifetime

The events a `SidecarManager` instance can experience: a `start`
attempt, a `call`, or the worker process exiting.  The source registers
no exit observer for the child — `self.child` is written only at
`sidecar.rs` line 539 (inside `start`) and nowhere cleared; no
`wait`/`try_wait` is ever called — so a worker exit leaves the manager
state unchanged. -/

inductive SysEvent where
  | startEv (w : StartWorld)
  | callEv (method : String) (params : JsonValue) (w : CallWorld)
  | workerExit

/-- One manager transition per event.  `workerExit` is the identity
because no code in the repository observes child exit (see above). -/
def step (m : SidecarManager) (e : SysEvent) : SidecarManager :=
  match e with
  | SysEvent.startEv w => (SidecarManager.start m w).2.1
  | SysEvent.callEv mth ps w => (SidecarManager.call m mth ps w).2.1
  | SysEvent.workerExit => m

/-- Number of calls in a trace that pass the not-started check and
reach the dispatch step (`sidecar.rs` line 560). -/
def numDispatched : SidecarManager → List SysEvent → Nat
  | _, [] => 0
  | m, e :: es =>
    (match e with
     | SysEvent.callEv _ _ _ => if m.child.isSome then 1 else 0
     | _ => 0) + numDispatched (step m e) es

/-- The request identifiers assigned, in order, by the dispatched calls
of a trace (the value `request_id` is set to at `sidecar.rs` line 560,
u64 wrapping). -/
def dispatchedIds : SidecarManager → List SysEvent → List Nat
  | _, [] => []
  | m, e :: es =>
    (match e with
     | SysEvent.callEv _ _ _ =>
         if m.child.isSome then [(m.request_id + 1) % 2 ^ 64] else []
     | _ => []) ++ dispatchedIds (step m e) es

/-! ## Concrete data for witnesses -/

def goodChild : Child := { pid := 1, stdinOk := true, stdoutOk := true }

/-- A start world in which discovery and spawn succeed: the executable
lives at `/root/app` and the script at `/root/sidecar/dist/index.cjs`. -/
def goodStartWorld : StartWorld :=
  { currentExe := Except.ok ["root", "app"]
  , fsExists := fun p => p == ["root", "sidecar", "dist", "index.cjs"]
  , node := some ["usr", "bin", "node"]
  , spawn := Except.ok goodChild
  , os := OS.linux }

/-- A start world in which every probe fails. -/
def barrenStartWorld : StartWorld :=
  { currentExe := Except.ok ["root", "app"]
  , fsExists := fun _ => false
  , node := none
  , spawn := Except.error SpawnErr.notFound
  , os := OS.linux }

/-- A manager currently holding a child handle. -/
def runningM : SidecarManager :=
  { child := some goodChild, request_id := 0, start_error := none }

/-- A manager whose last start attempt failed with reason "boom". -/
def failedM : SidecarManager :=
  { child := none, request_id := 0, start_error := some "boom" }

/-- A call world whose read yields a line parsing to a response with
neither `result` nor `error`. -/
def nullRespWorld : CallWorld :=
  { writeRes := Except.ok ()
  , flushRes := Except.ok ()
  , readRes := Except.ok "\x7b\x22jsonrpc\x22:\x222.0\x22,\x22id\x22:1\x7d"
  , parse := fun _ =>
      Except.ok { jsonrpc := "2.0", id := some 1, result := none, error := none } }

/-- A keyring whose read fails (store unreachable) while an entry is
stored. -/
def unreachableStore : KeyringState :=
  { initErr := none, entry := some "OLDKEY", readErr := some "store unreachable"
  , setErr := none }

/-- A valid stored key: the base64 of 32 zero bytes. -/
def valid32 : String := encodeB64 (List.replicate 32 0)

/-- A concrete trace: one successful start followed by two calls. -/
def es0 : List SysEvent :=
  [SysEvent.startEv goodStartWorld,
   SysEvent.callEv "ping" JsonValue.null nullRespWorld,
   SysEvent.callEv "get_credential_status" JsonValue.null nullRespWorld]

/-- A keyring whose stored entry is present and non-empty but does not
decode to 32 bytes. -/
def invalidEntryStore : KeyringState :=
  { initErr := none, entry := some "x", readErr := none, setErr := none }

/-! ## Helper lemmas -/

lemma call_not_started (m : SidecarManager) (mth : String) (ps : JsonValue)
    (w : CallWorld) (h : m.child = none) :
    SidecarManager.call m mth ps w =
      (Except.error (match m.start_error with
        | some se => "Sidecar not started" ++ ": " ++ se
        | none => "Sidecar not started"), m, []) := by
  cases hse : m.start_error <;> simp [SidecarManager.call, h, hse]

lemma call_dispatch_state (m : SidecarManager) (c : Child) (mth : String)
    (ps : JsonValue) (w : CallWorld) (h : m.child = some c) :
    (SidecarManager.call m mth ps w).2.1 =
      { m with request_id := (m.request_id + 1) % 2 ^ 64 } := by
  simp [SidecarManager.call, h]

lemma call_child_eq (m : SidecarManager) (mth : String) (ps : JsonValue)
    (w : CallWorld) : (SidecarManager.call m mth ps w).2.1.child = m.child := by
  cases h : m.child
  · cases hse : m.start_error <;> simp [SidecarManager.call, h, hse]
  · simp [SidecarManager.call, h]

lemma start_noop (m : SidecarManager) (w : StartWorld) (h : m.child.isSome = true) :
    SidecarManager.start m w = (Except.ok (), m, []) := by
  simp [SidecarManager.start, h]

lemma start_request_id (m : SidecarManager) (w : StartWorld) :
    (SidecarManager.start m w).2.1.request_id = m.request_id := by
  by_cases h : m.child.isSome <;> simp [SidecarManager.start, h]
  cases startDiscovery w <;> rfl

/-! ## Claims -/

/-- C3: for every method and params, `call()` invoked while no child
handle is held fails immediately with the fixed "Sidecar not started"
marker, extended with the last recorded start-failure reason when one
exists, else the marker alone; the state is returned unchanged and no
stream traffic occurs. -/
theorem c3_theorem (m : SidecarManager) (mth : String) (ps : JsonValue)
    (w : CallWorld) (h : m.child = none) :
    SidecarManager.call m mth ps w =
      (Except.error (match m.start_error with
        | some se => "Sidecar not started" ++ ": " ++ se
        | none => "Sidecar not started"), m, []) :=
  call_not_started m mth ps w h

/-- Witness for C3: with a recorded failure "boom" the composed message
is returned; with no recorded failure the marker alone is returned. -/
theorem c3_witness :
    SidecarManager.call failedM "ping" JsonValue.null nullRespWorld =
      (Except.error "Sidecar not started: boom", failedM, []) ∧
    SidecarManager.call SidecarManager.new "ping" JsonValue.null nullRespWorld =
      (Except.error "Sidecar not started", SidecarManager.new, []) :=
  ⟨c3_theorem failedM "ping" JsonValue.null nullRespWorld rfl,
   c3_theorem SidecarManager.new "ping" JsonValue.null nullRespWorld rfl⟩

/-- C4: on the secret-store path, a read error other than an absent
entry is propagated as a failure and the keyring state — the stored
entry included — is left completely unchanged: no key is generated,
stored, or overwritten. -/
theorem c4_theorem (s : KeyringState) (e : String) (g : Except String (List Nat))
    (h1 : s.initErr = none) (h2 : s.readErr = some e) :
    get_or_create_cache_key_b64 s g =
      (Except.error ("Failed to read keyring entry: " ++ e), s) := by
  simp [get_or_create_cache_key_b64, h1, h2]

/-- Witness for C4: an unreachable store with a stored entry propagates
the read failure and keeps the entry. -/
theorem c4_witness :
    get_or_create_cache_key_b64 unreachableStore (Except.ok (List.replicate 32 0)) =
      (Except.error "Failed to read keyring entry: store unreachable",
       unreachableStore) :=
  c4_theorem unreachableStore "store unreachable" (Except.ok (List.replicate 32 0))
    rfl rfl

/-- C5: `start()` invoked while a child handle is already held returns
success immediately, leaves the supervisor state unchanged, spawns
nothing (no events), and consults none of the discovery oracles (the
result is independent of the world). -/
theorem c5_theorem (m : SidecarManager) (w w' : StartWorld)
    (h : m.child.isSome = true) :
    SidecarManager.start m w = (Except.ok (), m, []) ∧
    SidecarManager.start m w = SidecarManager.start m w' :=
  ⟨start_noop m w h, by rw [start_noop m w h, start_noop m w' h]⟩

/-- Witness for C5 at a running manager, against both a fully
successful and a fully failing discovery world. -/
theorem c5_witness :
    SidecarManager.start runningM goodStartWorld = (Except.ok (), runningM, []) ∧
    SidecarManager.start runningM goodStartWorld =
      SidecarManager.start runningM barrenStartWorld :=
  c5_theorem runningM goodStartWorld barrenStartWorld rfl

/-- C6: a `call()` whose parsed response line carries neither a
`result` field nor an `error` field returns success with the logical
null value, not a failure. -/
theorem c6_theorem (m : SidecarManager) (c : Child) (mth : String) (ps : JsonValue)
    (w : CallWorld) (line : String) (resp : JsonRpcResponse')
    (hc : m.child = some c) (hin : c.stdinOk = true) (hout : c.stdoutOk = true)
    (hw : w.writeRes = Except.ok ()) (hf : w.flushRes = Except.ok ())
    (hr : w.readRes = Except.ok line) (hp : w.parse line = Except.ok resp)
    (herr : resp.error = none) (hres : resp.result = none) :
    (SidecarManager.call m mth ps w).1 = Except.ok JsonValue.null := by
  simp [SidecarManager.call, hc, callDispatched, hin, hout, hw, hf, hr, hp, herr, hres]

/-- Witness for C6: a worker reply `{"jsonrpc":"2.0","id":1}` yields a
successful null result. -/
theorem c6_witness :
    (SidecarManager.call runningM "clear_user_cache" JsonValue.null nullRespWorld).1 =
      Except.ok JsonValue.null :=
  c6_theorem runningM goodChild "clear_user_cache" JsonValue.null nullRespWorld
    "\x7b\x22jsonrpc\x22:\x222.0\x22,\x22id\x22:1\x7d"
    { jsonrpc := "2.0", id := some 1, result := none, error := none }
    rfl rfl rfl rfl rfl rfl rfl rfl rfl

/-- C10: when `call()` fails because no child handle is held, the
channel state is completely unchanged — the request-identifier counter
is not incremented and no stream traffic occurs — and an error is
returned. -/
theorem c10_theorem (m : SidecarManager) (mth : String) (ps : JsonValue)
    (w : CallWorld) (h : m.child = none) :
    (SidecarManager.call m mth ps w).2.1.request_id = m.request_id ∧
    (SidecarManager.call m mth ps w).2.1 = m ∧
    (SidecarManager.call m mth ps w).2.2 = [] ∧
    ∃ msg, (SidecarManager.call m mth ps w).1 = Except.error msg := by
  cases hse : m.start_error <;> simp [SidecarManager.call, h, hse]

/-- Witness for C10 at the freshly constructed manager. -/
theorem c10_witness :
    (SidecarManager.call SidecarManager.new "acquire_app_token" JsonValue.null
        nullRespWorld).2.1.request_id = SidecarManager.new.request_id ∧
    (SidecarManager.call SidecarManager.new "acquire_app_token" JsonValue.null
        nullRespWorld).2.1 = SidecarManager.new ∧
    (SidecarManager.call SidecarManager.new "acquire_app_token" JsonValue.null
        nullRespWorld).2.2 = [] ∧
    ∃ msg, (SidecarManager.call SidecarManager.new "acquire_app_token" JsonValue.null
        nullRespWorld).1 = Except.error msg :=
  c10_theorem SidecarManager.new "acquire_app_token" JsonValue.null nullRespWorld rfl

/-- C1 counterexample: the claim quantifies over the secret store as
well, but the secret-store path of `provision()` checks only that the
stored entry has a non-empty trim (`sidecar.rs` line 29) — it never
applies the 32-byte decode check.  The entry "x" is present and fails
to decode to exactly 32 bytes, yet `get_or_create_cache_key_b64`
returns it unchanged and generates and overwrites nothing, against the
claim's regeneration clause. -/
theorem c1_counterexample :
    is_valid_cache_key_b64 "x" = false ∧
    get_or_create_cache_key_b64 invalidEntryStore
        (Except.ok (List.replicate 32 1)) =
      (Except.ok "x", invalidEntryStore) := by
  exact ⟨by decide, rfl⟩

/-- C1 as amended: on the key-file path a stored value decoding to
exactly 32 bytes is returned (trimmed) unchanged, and a
present-but-invalid value is overwritten with a fresh key; on the
secret-store path any entry with non-empty trim is returned unchanged
(no 32-byte validity check), and only an absent or empty entry triggers
generation and overwrite. -/
theorem c1_amended :
    (∀ (s : FileState) (v : String) (g : Except String (List Nat)),
        s.content = some v → is_valid_cache_key_b64 v = true →
        get_or_create_cache_key_b64_file s g = (Except.ok (strTrim v), s)) ∧
    (∀ (s : FileState) (v : String) (key : List Nat),
        s.content = some v → is_valid_cache_key_b64 v = false →
        s.mkdirErr = none → s.writeErr = none →
        get_or_create_cache_key_b64_file s (Except.ok key) =
          (Except.ok (encodeB64 key), { s with content := some (encodeB64 key) })) ∧
    (∀ (s : KeyringState) (v : String) (g : Except String (List Nat)),
        s.initErr = none → s.readErr = none → s.entry = some v → strTrim v ≠ "" →
        get_or_create_cache_key_b64 s g = (Except.ok v, s)) ∧
    (∀ (s : KeyringState) (key : List Nat),
        s.initErr = none → s.readErr = none → s.setErr = none →
        (s.entry = none ∨ ∃ v, s.entry = some v ∧ strTrim v = "") →
        get_or_create_cache_key_b64 s (Except.ok key) =
          (Except.ok (encodeB64 key), { s with entry := some (encodeB64 key) })) := by
  refine ⟨fun s v g h1 h2 => ?_, fun s v key h1 h2 h3 h4 => ?_,
          fun s v g h1 h2 h3 h4 => ?_, fun s key h1 h2 h3 h4 => ?_⟩
  · simp [get_or_create_cache_key_b64_file, h1, h2]
  · simp [get_or_create_cache_key_b64_file, fileRegenerate, h1, h2, h3, h4]
  · simp [get_or_create_cache_key_b64, h1, h2, h3, h4]
  · rcases h4 with he | ⟨v, he, hv⟩
    · simp [get_or_create_cache_key_b64, keyringRegenerate, h1, h2, h3, he]
    · simp [get_or_create_cache_key_b64, keyringRegenerate, h1, h2, h3, he, hv]

/-- Witness for the amended C1, one concrete instance per conjunct. -/
theorem c1_witness :
    get_or_create_cache_key_b64_file
        { content := some valid32, mkdirErr := none, writeErr := none }
        (Except.ok (List.replicate 32 1)) =
      (Except.ok (strTrim valid32),
       { content := some valid32, mkdirErr := none, writeErr := none }) ∧
    get_or_create_cache_key_b64_file
        { content := some "x", mkdirErr := none, writeErr := none }
        (Except.ok (List.replicate 32 1)) =
      (Except.ok (encodeB64 (List.replicate 32 1)),
       { content := some (encodeB64 (List.replicate 32 1)), mkdirErr := none
       , writeErr := none }) ∧
    get_or_create_cache_key_b64
        { initErr := none, entry := some "zzz", readErr := none, setErr := none }
        (Except.ok (List.replicate 32 1)) =
      (Except.ok "zzz",
       { initErr := none, entry := some "zzz", readErr := none, setErr := none }) ∧
    get_or_create_cache_key_b64
        { initErr := none, entry := none, readErr := none, setErr := none }
        (Except.ok (List.replicate 32 1)) =
      (Except.ok (encodeB64 (List.replicate 32 1)),
       { initErr := none, entry := some (encodeB64 (List.replicate 32 1))
       , readErr := none, setErr := none }) :=
  ⟨c1_amended.1 _ valid32 _ rfl (by decide),
   c1_amended.2.1 _ "x" _ rfl (by decide) rfl rfl,
   c1_amended.2.2.1 _ "zzz" _ rfl rfl rfl (by decide),
   c1_amended.2.2.2 _ _ rfl rfl rfl (Or.inl rfl)⟩

/-- C2 counterexample: after a successful start the worker exits; the
claim says `isRunning()` then reports false, but no code in the
repository observes child exit, so the handle is still held and the
health query still reports running. -/
theorem c2_counterexample :
    (check_sidecar_health
        (step SidecarManager.new (SysEvent.startEv goodStartWorld))).running = true ∧
    (check_sidecar_health
        (step (step SidecarManager.new (SysEvent.startEv goodStartWorld))
          SysEvent.workerExit)).running = true :=
  ⟨rfl, rfl⟩

/-- C2 as amended: the supervisor performs no transition on worker
exit — the handle remains held and `isRunning()` keeps reporting
true — and it never restarts a crashed worker automatically: `start()`
is a no-op while a handle is held, and the child field changes only
through an explicit `start()` event. -/
theorem c2_amended (m : SidecarManager) :
    step m SysEvent.workerExit = m ∧
    (∀ w, m.child.isSome = true → step m (SysEvent.startEv w) = m) ∧
    (∀ e, (step m e).child ≠ m.child → ∃ w, e = SysEvent.startEv w) := by
  refine ⟨rfl, fun w h => ?_, fun e h => ?_⟩
  · simp [step, start_noop m w h]
  · cases e with
    | startEv w => exact ⟨w, rfl⟩
    | callEv mth ps w => exact absurd (call_child_eq m mth ps w) h
    | workerExit => exact absurd rfl h

/-- Witness for the amended C2 at concrete inputs. -/
theorem c2_witness :
    step runningM SysEvent.workerExit = runningM ∧
    step runningM (SysEvent.startEv barrenStartWorld) = runningM ∧
    (∃ w, SysEvent.startEv goodStartWorld = SysEvent.startEv w) :=
  ⟨(c2_amended runningM).1,
   (c2_amended runningM).2.1 barrenStartWorld rfl,
   (c2_amended SidecarManager.new).2.2 (SysEvent.startEv goodStartWorld) (by decide)⟩

lemma call_none_state (m : SidecarManager) (mth : String) (ps : JsonValue)
    (w : CallWorld) (h : m.child = none) :
    (SidecarManager.call m mth ps w).2.1 = m := by
  cases hse : m.start_error <;> simp [SidecarManager.call, h, hse]

/-- Along any trace, the identifiers assigned at the dispatch step are
exactly the consecutive integers following the starting counter value,
provided the u64 counter does not overflow. -/
lemma dispatchedIds_eq_range (es : List SysEvent) : ∀ (m : SidecarManager),
    m.request_id + numDispatched m es < 2 ^ 64 →
    dispatchedIds m es = List.range' (m.request_id + 1) (numDispatched m es) := by
  induction es with
  | nil => intro m _; rfl
  | cons e es ih =>
    intro m h
    cases e with
    | startEv w =>
      have hreq : (step m (SysEvent.startEv w)).request_id = m.request_id :=
        start_request_id m w
      rw [show numDispatched m (SysEvent.startEv w :: es) =
            numDispatched (step m (SysEvent.startEv w)) es from by
          simp [numDispatched]]
      rw [show dispatchedIds m (SysEvent.startEv w :: es) =
            dispatchedIds (step m (SysEvent.startEv w)) es from by
          simp [dispatchedIds]]
      rw [← hreq]
      refine ih _ ?_
      rw [hreq]
      simp only [numDispatched] at h
      omega
    | workerExit =>
      rw [show numDispatched m (SysEvent.workerExit :: es) = numDispatched m es from by
          simp [numDispatched, step]]
      rw [show dispatchedIds m (SysEvent.workerExit :: es) = dispatchedIds m es from by
          simp [dispatchedIds, step]]
      refine ih m ?_
      simp only [numDispatched, step] at h
      omega
    | callEv mth ps w =>
      cases hc : m.child with
      | none =>
        have hsome : m.child.isSome = false := by simp [hc]
        have hstep : step m (SysEvent.callEv mth ps w) = m := by
          simp [step, call_none_state m mth ps w hc]
        rw [show numDispatched m (SysEvent.callEv mth ps w :: es) =
              numDispatched (step m (SysEvent.callEv mth ps w)) es from by
            simp [numDispatched, hsome]]
        rw [show dispatchedIds m (SysEvent.callEv mth ps w :: es) =
              dispatchedIds (step m (SysEvent.callEv mth ps w)) es from by
            simp [dispatchedIds, hsome]]
        rw [hstep]
        refine ih m ?_
        simp only [numDispatched, hsome, if_false, step,
          call_none_state m mth ps w hc] at h
        omega
      | some c =>
        have hsome : m.child.isSome = true := by simp [hc]
        have hstep : step m (SysEvent.callEv mth ps w) =
            { m with request_id := (m.request_id + 1) % 2 ^ 64 } :=
          call_dispatch_state m c mth ps w hc
        have hcount : numDispatched m (SysEvent.callEv mth ps w :: es) =
            1 + numDispatched (step m (SysEvent.callEv mth ps w)) es := by
          simp [numDispatched, hsome]
        have hlt : m.request_id + 1 < 2 ^ 64 := by rw [hcount] at h; omega
        have hmod : (m.request_id + 1) % 2 ^ 64 = m.request_id + 1 :=
          Nat.mod_eq_of_lt hlt
        have hids : dispatchedIds m (SysEvent.callEv mth ps w :: es) =
            (m.request_id + 1) % 2 ^ 64 ::
              dispatchedIds (step m (SysEvent.callEv mth ps w)) es := by
          simp [dispatchedIds, hsome]
        have hreq2 : (step m (SysEvent.callEv mth ps w)).request_id =
            m.request_id + 1 := by rw [hstep]; exact hmod
        have ih' := ih (step m (SysEvent.callEv mth ps w)) (by
          rw [hreq2]; rw [hcount] at h; omega)
        rw [hids, hcount, hmod, ih', hreq2, Nat.add_comm 1 (numDispatched _ es),
          List.range'_succ]

/-- C7: across the channel's lifetime, every `call()` that reaches the
dispatch step assigns a request identifier strictly greater than every
previously assigned identifier — the identifiers are exactly
1, 2, 3, …, assigned in order, never reused — provided the number of
dispatched calls stays below 2^64 (the u64 counter wraps only there;
the source does no wraparound handling). -/
theorem c7_theorem (es : List SysEvent)
    (h : numDispatched SidecarManager.new es < 2 ^ 64) :
    dispatchedIds SidecarManager.new es =
      List.range' 1 (numDispatched SidecarManager.new es) ∧
    List.Pairwise (· < ·) (dispatchedIds SidecarManager.new es) := by
  have heq := dispatchedIds_eq_range es SidecarManager.new
    (show SidecarManager.new.request_id + numDispatched SidecarManager.new es < 2 ^ 64
      from by show 0 + _ < _; omega)
  refine ⟨heq, ?_⟩
  rw [heq]
  exact List.pairwise_lt_range' _ _

/-- Witness for C7 on the concrete trace `es0` (one start, two calls):
the assigned identifiers are `[1, 2]`. -/
theorem c7_witness :
    dispatchedIds SidecarManager.new es0 =
      List.range' 1 (numDispatched SidecarManager.new es0) ∧
    List.Pairwise (· < ·) (dispatchedIds SidecarManager.new es0) :=
  c7_theorem es0 (by decide)

/-- Each element of the joined list occurs verbatim inside the join. -/
lemma joinSep_infix (sep : String) (l : List String) (s : String) (hs : s ∈ l) :
    s.data <:+: (joinSep sep l).data := by
  induction l with
  | nil => cases hs
  | cons x rest ih =>
    cases rest with
    | nil =>
      rw [List.mem_singleton] at hs
      subst hs
      exact List.infix_refl _
    | cons y rest' =>
      rcases List.mem_cons.mp hs with hx | htail
      · subst hx
        exact ⟨[], (sep ++ joinSep sep (y :: rest')).data, by
          simp [joinSep, String.data_append, List.append_assoc]⟩
      · refine (ih htail).trans ⟨(x ++ sep).data, [], ?_⟩
        simp [joinSep, String.data_append, List.append_assoc]

/-- C8: when no production script candidate exists on disk and no
ancestor of the executable's directory contains the expected relative
script path, `start()` fails — recording the failure in
`start_error` and spawning nothing — with the script-not-found message
built from the full checked-path list, and the rendering of every
checked path occurs verbatim inside that message. -/
theorem c8_theorem (m : SidecarManager) (w : StartWorld)
    (exePath exeDir : List String)
    (hchild : m.child = none)
    (hexe : w.currentExe = Except.ok exePath)
    (hparent : listParent exePath = some exeDir)
    (hprod : ∀ p ∈ pathsToCheck w.os exeDir, w.fsExists p = false)
    (hanc : ∀ a ∈ ancestors exeDir, w.fsExists (a ++ sidecarRel) = false) :
    SidecarManager.start m w =
      (Except.error (scriptNotFoundMsg (pathsToCheck w.os exeDir)),
       { m with start_error := some (scriptNotFoundMsg (pathsToCheck w.os exeDir)) },
       []) ∧
    ∀ p ∈ pathsToCheck w.os exeDir,
      (renderPath p).data <:+: (scriptNotFoundMsg (pathsToCheck w.os exeDir)).data := by
  constructor
  · have hsome : m.child.isSome = false := by simp [hchild]
    have hfind1 : (pathsToCheck w.os exeDir).find? (fun p => w.fsExists p) = none := by
      rw [List.find?_eq_none]
      intro x hx
      simp [hprod x hx]
    have hfind2 : (ancestors exeDir).find?
        (fun a => w.fsExists (a ++ sidecarRel)) = none := by
      rw [List.find?_eq_none]
      intro a ha
      simp [hanc a ha]
    simp [SidecarManager.start, hsome, startDiscovery, hexe, hparent,
      findSidecarScript, hfind1, hfind2]
  · intro p hp
    have h1 : (renderPath p).data <:+:
        (joinSep ", " ((pathsToCheck w.os exeDir).map renderPath)).data :=
      joinSep_infix _ _ _ (List.mem_map_of_mem renderPath hp)
    obtain ⟨t, u, hh⟩ := h1
    refine ⟨"Could not find sidecar dist directory. Checked paths: ".data ++ t,
      u ++ ". Make sure the sidecar is built (cd sidecar && npm run build)".data, ?_⟩
    simp only [scriptNotFoundMsg, String.data_append, ← hh, List.append_assoc]

/-- Witness for C8: from a fresh manager, with the executable at
`/root/app` and an entirely empty filesystem, `start` fails with the
message naming the single checked candidate path. -/
theorem c8_witness :
    SidecarManager.start SidecarManager.new barrenStartWorld =
      (Except.error (scriptNotFoundMsg
        (pathsToCheck barrenStartWorld.os ["root"])),
       { SidecarManager.new with start_error := some (scriptNotFoundMsg
         (pathsToCheck barrenStartWorld.os ["root"])) },
       []) ∧
    ∀ p ∈ pathsToCheck barrenStartWorld.os ["root"],
      (renderPath p).data <:+:
        (scriptNotFoundMsg (pathsToCheck barrenStartWorld.os ["root"])).data :=
  c8_theorem SidecarManager.new barrenStartWorld ["root", "app"] ["root"]
    rfl rfl rfl (by intro p hp; rfl) (by intro a ha; rfl)
